import Mathlib

/-!
Verification development for ScreenshotConverterPlugin.py (version 1.0.6).

The plugin listens for "Screenshot" events, derives the on-disk path of the
captured bitmap (substituting the "ED_Pictures" alias with a configured base
directory), converts the image to the configured target format, deletes the
original, and reports success or failure through derived events.

The embedding below models:
  * incoming host events (`Event`, with an optional `content` attribute that
    may or may not be a dictionary),
  * the derived events the plugin constructs (`ProjectedEvent`),
  * the host-provided context (`Ctx`: plugin helper with its two settings and
    the Location projection, plus the OS services expandvars and path
    resolution), and
  * the observable file-system facts (`FS`: existence and modification age).

Pure Python string and path operations (str.split, str.lstrip, pathlib stem,
parent and joining, strftime) are translated into executable Lean functions
on `List Char` / `String`.  Effects are made explicit: the handler returns
the derived events plus an optional record of the conversion thread launch,
and the conversion routine returns a trace of the save call, the deletion
flag and the emitted events.  The image library (PIL) is external to the
repository; its open/save step is abstracted by a success flag, and the save
call records the exact path and format argument the code passes to it.
-/

namespace ScreenshotConverter

/-- Values that can appear inside an event content dictionary.
`truthyOther` / `falsyOther` stand for non-string, non-None Python values of
the corresponding truthiness (e.g. a non-empty list vs an empty one). -/
inductive PyVal where
  | str : String → PyVal
  | pyNone : PyVal
  | truthyOther : PyVal
  | falsyOther : PyVal
deriving DecidableEq

/-- Python truthiness (`bool(v)`) restricted to the modelled values. -/
def truthy : PyVal → Bool
  | PyVal.str s => decide (s ≠ "")
  | PyVal.pyNone => false
  | PyVal.truthyOther => true
  | PyVal.falsyOther => false

/-- The `content` attribute of an incoming event: either a Python dict
(modelled as an association list) or some non-dict value (for which
`isinstance(event.content, dict)` is false and `.get` raises). -/
inductive Content where
  | dict : List (String × PyVal) → Content
  | nonDict : Content

/-- An incoming host event.  `content = none` models an event object without
a `content` attribute (`hasattr(event, "content")` is false). -/
structure Event where
  content : Option Content

/-- The derived events the plugin constructs (ScreenshotConverterPlugin.py
lines 121-124, 129-132, 160-163, 199-202, 234-239, 248-252).  Field names
follow the dict literals in the source: `message`, `path`, `originalPath`,
`newPath`, `system`. -/
inductive ProjectedEvent where
  | screenshotError (message : String)
  | screenshotErrorPath (message : String) (path : String)
  | screenshotConverted (originalPath : String) (newPath : String) (system : String)
deriving DecidableEq

/-- Observable file-system facts.  `fileExists` models `Path.exists()`;
`mtimeAgeMin` records how many minutes ago each file was last modified
(the source of ScreenshotConverterPlugin.py never reads it). -/
structure FS where
  fileExists : String → Bool
  mtimeAgeMin : String → Nat

/-- The host plugin helper as seen by this plugin: the two persisted settings
(`get_plugin_setting("ScreenshotConverterPlugin", "settings", key)`, `none`
when unset) and the state of the Location projection (`none` when the
projection is not registered; the inner lookup list is its state dict). -/
structure Helper where
  screenshot_path : Option String
  target_format : Option String
  locationState : Option (List (String × String))

/-- Host / OS context: `plugin_helper` is `none` before
`on_plugin_helper_ready` runs; `expandvars` models `os.path.expandvars`;
`resolvePath` models `Path.expanduser().resolve()`. -/
structure Ctx where
  plugin_helper : Option Helper
  expandvars : String → String
  resolvePath : String → String

/-- Arguments handed to the conversion thread launched at
ScreenshotConverterPlugin.py lines 170-172. -/
structure ConvArgs where
  bmpPath : String
  currentSystem : String
deriving DecidableEq

/-- Result of processing one incoming event: the derived events returned to
the host plus the conversion-thread launch, if any (the only way the handler
can touch the file system). -/
structure ProcessResult where
  projected : List ProjectedEvent
  conversionStarted : Option ConvArgs
deriving DecidableEq

/-- The arguments of the `img.save(new_path, format=..., quality=90)` call
(ScreenshotConverterPlugin.py line 225): the destination path, the string
passed as `format=`, and whether `img.convert("RGB")` ran first. -/
structure SaveCall where
  path : String
  formatArg : String
  convertedRGB : Bool
deriving DecidableEq

/-- Effect trace of `_convert_screenshot`: the save call (when the image
round-trip succeeded), whether the original file was unlinked, and the
derived events pushed through `add_projected_event`. -/
structure ConvertResult where
  saved : Option SaveCall
  deletedOriginal : Bool
  emitted : List ProjectedEvent
deriving DecidableEq

/-- A wall-clock instant as used by `datetime.now().strftime("%Y%m%d%H%M%S")`.
Years are modelled in the range 0-9999 (four `%Y` digits). -/
structure DateTime6 where
  year : Nat
  month : Nat
  day : Nat
  hour : Nat
  minute : Nat
  second : Nat

/-! ## String and path primitives -/

/-- The alias separator literal `"ED_Pictures"` as a character list. -/
def edSep : List Char := "ED_Pictures".data

/-- `raw.lstrip("\\/")`: drop leading backslashes and forward slashes
(ScreenshotConverterPlugin.py line 148). -/
def lstripSlashes (s : List Char) : List Char :=
  s.dropWhile (fun c => c == '\\' || c == '/')

/-- Python's `s.split("ED_Pictures")`, first occurrence step: `some r` when
the separator occurs in `s`, where `r` is the text after the leftmost
occurrence; `none` when it does not occur. -/
def afterFirstED : List Char → Option (List Char)
  | [] => none
  | c :: cs =>
      if edSep.isPrefixOf (c :: cs) then some ((c :: cs).drop edSep.length)
      else afterFirstED cs

/-- Fueled loop computing `s.split("ED_Pictures")[-1]` by repeatedly
skipping past the leftmost remaining occurrence.  Each step removes at
least `edSep.length ≥ 1` characters, so `s.length` fuel always suffices. -/
def pySplitLastGo : Nat → List Char → List Char
  | 0, s => s
  | fuel + 1, s =>
      match afterFirstED s with
      | none => s
      | some r => pySplitLastGo fuel r

/-- Python's `s.split("ED_Pictures")[-1]` (ScreenshotConverterPlugin.py
line 148): the final segment of the left-to-right non-overlapping split. -/
def pySplitLastED (s : List Char) : List Char := pySplitLastGo s.length s

/-- `Path.__truediv__` for the uses in the source: the right operand is a
relative name with no leading separator ('' components are dropped by
pathlib, so joining with the empty string returns the left operand). -/
def pathJoin (a b : String) : String :=
  if b = "" then a else a ++ "/" ++ b

/-- Left-to-right model of `s.split(c)[-1]` for a single-character separator:
fold over the string, restarting the current segment after each separator. -/
def splitCharLast (c : Char) (s : List Char) : List Char :=
  s.foldl (fun acc ch => if ch = c then [] else acc ++ [ch]) []

/-- `list.index(c)` / leftmost index of a character (length when absent). -/
def idxOfChar (c : Char) : List Char → Nat
  | [] => 0
  | x :: xs => if x = c then 0 else idxOfChar c xs + 1

/-- `PurePath.stem` applied to a file name: `i = name.rfind(".")`; the stem
is `name[:i]` when `0 < i < len(name) - 1`, else the whole name. -/
def pyStem (name : List Char) : List Char :=
  if name.contains '.' then
    let i := name.length - 1 - idxOfChar '.' name.reverse
    if 0 < i ∧ i < name.length - 1 then name.take i else name
  else name

/-- `Path.name`: the component after the last separator (the whole string
when no separator occurs).  Resolved paths are modelled with '/' as the
separator. -/
def pathName (p : String) : String :=
  String.mk (splitCharLast '/' p.data)

/-- `Path.parent`: everything before the last separator ("." when the path
has no separator, as in pathlib). -/
def pathParent (p : String) : String :=
  if p.data.contains '/' then
    String.mk (((p.data.reverse.dropWhile (fun c => c != '/')).drop 1).reverse)
  else "."

/-- The decimal digit character for `n % 10`. -/
def digitChar (n : Nat) : Char := Char.ofNat (48 + n % 10)

/-- Two-digit zero-padded field (`%m`, `%d`, `%H`, `%M`, `%S`). -/
def pad2 (n : Nat) : String := String.mk [digitChar (n / 10), digitChar n]

/-- Four-digit zero-padded field (`%Y` for years 0-9999). -/
def pad4 (n : Nat) : String :=
  String.mk [digitChar (n / 1000), digitChar (n / 100), digitChar (n / 10), digitChar n]

/-- `datetime.now().strftime("%Y%m%d%H%M%S")`
(ScreenshotConverterPlugin.py line 212). -/
def strftimeTS (t : DateTime6) : String :=
  pad4 t.year ++ pad2 t.month ++ pad2 t.day ++ pad2 t.hour ++ pad2 t.minute ++ pad2 t.second

/-- ASCII lower-casing of one character (`str.lower` on the setting values). -/
def asciiLowerChar (c : Char) : Char :=
  if 'A' ≤ c ∧ c ≤ 'Z' then Char.ofNat (c.toNat + 32) else c

/-- `s.lower()` (ScreenshotConverterPlugin.py line 210). -/
def asciiLower (s : String) : String := String.mk (s.data.map asciiLowerChar)

/-- ASCII upper-casing of one character (`str.upper` on the format string). -/
def asciiUpperChar (c : Char) : Char :=
  if 'a' ≤ c ∧ c ≤ 'z' then Char.ofNat (c.toNat - 32) else c

/-- `s.upper()` (ScreenshotConverterPlugin.py line 225). -/
def asciiUpper (s : String) : String := String.mk (s.data.map asciiUpperChar)

/-- `current_system.replace(" ", "_")` (ScreenshotConverterPlugin.py
line 216): a single-character replacement is a character map. -/
def replaceSpaces (s : String) : String :=
  String.mk (s.data.map (fun c => if c = ' ' then '_' else c))

/-- Python `x or default` for an optional string setting: `None` and the
empty string are falsy, so both fall back to the default. -/
def pyOrStr : Option String → String → String
  | some s, d => if s = "" then d else s
  | none, d => d

/-! ## The plugin operations -/

/-- The built-in default screenshot directory
(ScreenshotConverterPlugin.py lines 89 and 138). -/
def defaultScreenshotPath : String :=
  "%USERPROFILE%\\Pictures\\Frontier Developments\\Elite Dangerous"

/-- `get_plugin_setting(..., "screenshot_path") or r"%USERPROFILE%\..."`
(ScreenshotConverterPlugin.py lines 136-138). -/
def resolved_screenshot_path (h : Helper) : String :=
  pyOrStr h.screenshot_path defaultScreenshotPath

/-- `(get_plugin_setting(..., "target_format") or "png").lower()`
(ScreenshotConverterPlugin.py lines 207-210). -/
def resolved_target_format (h : Helper) : String :=
  asciiLower (pyOrStr h.target_format "png")

/-- `Path(os.path.expandvars(screenshot_path_setting))`
(ScreenshotConverterPlugin.py line 140). -/
def screenshot_dir (ctx : Ctx) (h : Helper) : String :=
  ctx.expandvars (resolved_screenshot_path h)

/-- ScreenshotConverterPlugin.py lines 144-149: start from the expanded raw
filename; when it contains "ED_Pictures", replace everything up to the end
of the alias by the configured screenshot directory, stripping leading
slashes from the remainder (`raw.split("ED_Pictures")[-1].lstrip("\\/")`). -/
def derive_bmp_path (dir raw : String) : String :=
  if (afterFirstED raw.data).isSome then
    pathJoin dir (String.mk (lstripSlashes (pySplitLastED raw.data)))
  else raw

/-- The absolute source path the handler uses: `Path(raw).expanduser().resolve()`
applied to the alias-substituted, environment-expanded filename
(ScreenshotConverterPlugin.py lines 143-152). -/
def derived_bmp (ctx : Ctx) (h : Helper) (filename : String) : String :=
  ctx.resolvePath (derive_bmp_path (screenshot_dir ctx h) (ctx.expandvars filename))

/-- `bmp_path.stem` (ScreenshotConverterPlugin.py line 213). -/
def stem_of (p : String) : String := String.mk (pyStem (pathName p).data)

/-- `bmp_path.stem.split("_")[-1] if "_" in bmp_path.stem else "System"`
(ScreenshotConverterPlugin.py line 213). -/
def system_name_of (p : String) : String :=
  if (stem_of p).data.contains '_' then String.mk (splitCharLast '_' (stem_of p).data)
  else "System"

/-- The part of the new file name before the extension dot:
`f"{safe_system_name}_{system_name}-{timestamp}"`
(ScreenshotConverterPlugin.py lines 216-217). -/
def conv_pre (bmp sys : String) (now : DateTime6) : String :=
  replaceSpaces sys ++ "_" ++ system_name_of bmp ++ "-" ++ strftimeTS now

/-- `new_name = f"{safe_system_name}_{system_name}-{timestamp}.{target_format}"`
(ScreenshotConverterPlugin.py line 217). -/
def conv_new_name (h : Helper) (bmp sys : String) (now : DateTime6) : String :=
  conv_pre bmp sys now ++ "." ++ resolved_target_format h

/-- `new_path = bmp_path.parent / new_name`
(ScreenshotConverterPlugin.py line 218). -/
def conv_new_path (h : Helper) (bmp sys : String) (now : DateTime6) : String :=
  pathJoin (pathParent bmp) (conv_new_name h bmp sys now)

/-- `_get_current_star_system` (ScreenshotConverterPlugin.py lines 177-188):
"Unknown" when the helper or the Location projection is unavailable or its
state has no "StarSystem" key. -/
def get_current_star_system (ctx : Ctx) : String :=
  match ctx.plugin_helper with
  | none => "Unknown"
  | some h =>
      match h.locationState with
      | none => "Unknown"
      | some st => (st.lookup "StarSystem").getD "Unknown"

/-- Shorthand for the `{"event": "ScreenshotError", "message": msg}`
literal. -/
def mkErr (msg : String) : ProjectedEvent := ProjectedEvent.screenshotError msg

/-- Body of `handle_screenshot_event` after the `Filename` fetch
(ScreenshotConverterPlugin.py lines 119-174), parameterised by the fetched
value.  A truthy non-string filename makes `os.path.expandvars` raise
TypeError, which propagates out of the handler (caught in `process`). -/
def handle_core (ctx : Ctx) (fs : FS) (filenameVal : Option PyVal) :
    Except String ProcessResult :=
  match filenameVal with
  | some (PyVal.str s) =>
      if s = "" then
        Except.ok ⟨[mkErr "Screenshot event missing Filename"], none⟩
      else
        match ctx.plugin_helper with
        | none => Except.ok ⟨[mkErr "Plugin helper not ready"], none⟩
        | some h =>
            let bmp := derived_bmp ctx h s
            if fs.fileExists bmp then
              Except.ok ⟨[], some ⟨bmp, get_current_star_system ctx⟩⟩
            else
              Except.ok ⟨[mkErr ("Screenshot file not found: " ++ bmp)], none⟩
  | some v =>
      if truthy v then Except.error "TypeError: expandvars expected str"
      else Except.ok ⟨[mkErr "Screenshot event missing Filename"], none⟩
  | none => Except.ok ⟨[mkErr "Screenshot event missing Filename"], none⟩

/-- `handle_screenshot_event` (ScreenshotConverterPlugin.py lines 115-174).
`event.content.get("Filename")` raises AttributeError when `content` exists
but is not a dict; a missing `content` attribute yields `None`. -/
def handle_screenshot_event (ctx : Ctx) (fs : FS) (event : Event) :
    Except String ProcessResult :=
  match event.content with
  | some Content.nonDict => Except.error "AttributeError: no attribute get"
  | some (Content.dict d) => handle_core ctx fs (d.lookup "Filename")
  | none => handle_core ctx fs none

/-- `ScreenshotProjection.process` (ScreenshotConverterPlugin.py lines
33-43): ignore events whose content is not a dict or whose "event" field is
not "Screenshot"; otherwise run the handler, catching every exception and
returning the empty list in that case. -/
def process (ctx : Ctx) (fs : FS) (event : Event) : ProcessResult :=
  match event.content with
  | some (Content.dict d) =>
      if d.lookup "event" = some (PyVal.str "Screenshot") then
        match handle_screenshot_event ctx fs event with
        | Except.ok r => r
        | Except.error _ => ⟨[], none⟩
      else ⟨[], none⟩
  | _ => ⟨[], none⟩

/-- `_convert_screenshot` (ScreenshotConverterPlugin.py lines 191-253),
with the PIL round-trip abstracted by `imageOk` (whether `Image.open` /
`img.save` succeeded).  `now` is the instant sampled at line 212. -/
def convert_screenshot (ctx : Ctx) (fs : FS) (bmpPath : String)
    (currentSystem : String) (now : DateTime6) (imageOk : Bool) : ConvertResult :=
  if fs.fileExists bmpPath then
    match ctx.plugin_helper with
    | none =>
        -- `helper.get_plugin_setting` raises AttributeError on None; the
        -- broad except logs it, and emits nothing since plugin_helper is None.
        ⟨none, false, []⟩
    | some h =>
        if imageOk then
          ⟨some ⟨conv_new_path h bmpPath currentSystem now,
                  asciiUpper (resolved_target_format h),
                  resolved_target_format h == "jpg"⟩,
            true,
            [ProjectedEvent.screenshotConverted bmpPath
              (conv_new_path h bmpPath currentSystem now) currentSystem]⟩
        else
          ⟨none, false,
            [ProjectedEvent.screenshotErrorPath "Screenshot conversion failed" bmpPath]⟩
  else
    ⟨none, false,
      match ctx.plugin_helper with
      | some _ => [mkErr ("Screenshot file not found: " ++ bmpPath)]
      | none => []⟩

/-! ## Definitions formalising the wording of the specification

These follow the spec text, not the source, and are compared with the
source-derived definitions above. -/

/-- From the spec: the portion of a string after the rightmost occurrence of
"ED_Pictures" (`some` when the alias occurs at all).  Occurrences further to
the right take precedence over one at the current head. -/
def afterLastED : List Char → Option (List Char)
  | [] => none
  | c :: cs =>
      match afterLastED cs with
      | some t => some t
      | none =>
          if edSep.isPrefixOf (c :: cs) then some ((c :: cs).drop edSep.length)
          else none

/-- From the spec (claim C4): when the filename contains the alias, join the
configured base directory with the portion after the last "ED_Pictures"
occurrence, leading slashes and backslashes stripped; otherwise use the
filename itself. -/
def spec_derive_path (dir raw : String) : String :=
  match afterLastED raw.data with
  | some t => pathJoin dir (String.mk (lstripSlashes t))
  | none => raw

/-- From the spec (claim C2): an incoming event counts as a screenshot
notification when its content is a dict whose "event" field is the string
"Screenshot". -/
def isScreenshotEvent (ev : Event) : Bool :=
  match ev.content with
  | some (Content.dict d) => d.lookup "event" = some (PyVal.str "Screenshot")
  | _ => false

/-- From the spec (claim C3): the "Filename" entry is missing or falsy
(absent, None, or an empty value). -/
def filenameFalsy (d : List (String × PyVal)) : Bool :=
  match d.lookup "Filename" with
  | none => true
  | some v => ! truthy v

/-- From the spec (claim C7): the characters after the last occurrence of a
separator character, computed by a right-to-left scan. -/
def specLastSegChar (c : Char) (s : List Char) : List Char :=
  (s.reverse.takeWhile (fun ch => ch != c)).reverse

/-- From the spec (claim C7): last underscore-separated segment of the stem,
or "System" when the stem has no underscore. -/
def spec_system_name (stem : String) : String :=
  if stem.data.contains '_' then String.mk (specLastSegChar '_' stem.data)
  else "System"

/-! ## Splitting lemmas

Python's `s.split(sep)[-1]` scans left to right, skipping past each
occurrence greedily; the spec speaks of the portion after the *last*
occurrence.  The two agree because "ED_Pictures" cannot overlap itself:
no nonempty proper suffix of it is also a prefix. -/

theorem edSep_length : edSep.length = 11 := by decide

theorem edSep_drop_ne_take : ∀ j, j < 11 → 0 < j → edSep.drop j ≠ edSep.take (11 - j) := by
  decide

theorem afterFirstED_length {s r : List Char} (h : afterFirstED s = some r) :
    r.length + edSep.length ≤ s.length := by
  induction s with
  | nil => simp [afterFirstED] at h
  | cons c cs ih =>
      rw [afterFirstED] at h
      by_cases hp : edSep.isPrefixOf (c :: cs) = true
      · rw [if_pos hp] at h
        have hle : edSep.length ≤ (c :: cs).length := by
          have hpre : edSep <+: (c :: cs) := by
            rw [← List.isPrefixOf_iff_prefix]; exact hp
          exact hpre.length_le
        have := congrArg (fun o => o.getD []) h
        simp only [Option.getD] at this
        subst this
        simp only [List.length_drop]
        omega
      · rw [if_neg hp] at h
        have := ih h
        simp only [List.length_cons]
        omega

theorem afterFirstED_none_iff (s : List Char) :
    afterFirstED s = none ↔ afterLastED s = none := by
  induction s with
  | nil => simp [afterFirstED, afterLastED]
  | cons c cs ih =>
      rw [afterFirstED, afterLastED]
      cases h2 : afterLastED cs with
      | none =>
          by_cases hp : edSep.isPrefixOf (c :: cs) = true
          · simp [hp]
          · simp [hp, ih, h2]
      | some t =>
          have hne : afterFirstED cs ≠ none := by
            intro h
            rw [ih.mp h] at h2
            exact absurd h2 (by simp)
          by_cases hp : edSep.isPrefixOf (c :: cs) = true
          · simp [hp]
          · simp [hp, hne]

theorem afterLastED_cons_not_pre {c : Char} {cs : List Char}
    (hp : ¬ edSep.isPrefixOf (c :: cs) = true) :
    afterLastED (c :: cs) = afterLastED cs := by
  rw [afterLastED]
  cases h2 : afterLastED cs with
  | none => rw [if_neg hp]
  | some t => rfl

theorem no_overlap {s : List Char} {j : Nat} (h0 : 0 < j) (h11 : j < edSep.length)
    (h1 : edSep.isPrefixOf s = true) (h2 : edSep.isPrefixOf (s.drop j) = true) : False := by
  rw [ List.isPrefixOf_iff_prefix] at h1 h2
  obtain ⟨t1, ht1⟩ := h1
  obtain ⟨t2, ht2⟩ := h2
  rw [edSep_length] at h11
  have hdrop : s.drop j = edSep.drop j ++ t1 := by
    rw [← ht1, List.drop_append_of_le_length (by rw [edSep_length]; omega)]
  have hmain : edSep ++ t2 = edSep.drop j ++ t1 := by rw [ht2, hdrop]
  have htake := congrArg (List.take (11 - j)) hmain
  have hlen : (edSep.drop j).length = 11 - j := by
    rw [List.length_drop, edSep_length]
  have hL : List.take (11 - j) (edSep ++ t2) = List.take (11 - j) edSep :=
    List.take_append_of_le_length (by rw [edSep_length]; omega)
  have hR : List.take (11 - j) (edSep.drop j ++ t1) = edSep.drop j := by
    rw [List.take_append_of_le_length (Nat.le_of_eq hlen.symm)]
    exact List.take_of_length_le (Nat.le_of_eq hlen)
  rw [hL, hR] at htake
  exact edSep_drop_ne_take j h11 h0 htake.symm

theorem afterLastED_drop_one {s : List Char} (hp : ¬ edSep.isPrefixOf s = true) :
    afterLastED s = afterLastED (s.drop 1) := by
  cases s with
  | nil => rfl
  | cons c cs => rw [List.drop_succ_cons, List.drop_zero, afterLastED_cons_not_pre hp]

theorem afterLastED_drop_of_no_occ :
    ∀ (k : Nat) (s : List Char),
      (∀ j, j < k → ¬ edSep.isPrefixOf (s.drop j) = true) →
      afterLastED s = afterLastED (s.drop k)
  | 0, s, _ => by rw [List.drop_zero]
  | k + 1, s, h => by
      have ih := afterLastED_drop_of_no_occ k s (fun j hj => h j (by omega))
      rw [ih, afterLastED_drop_one (h k (by omega)), List.drop_drop]

theorem afterLastED_of_afterFirstED :
    ∀ (s r : List Char), afterFirstED s = some r →
      afterLastED s = some ((afterLastED r).getD r)
  | [], r, h => by simp [afterFirstED] at h
  | c :: cs, r, h => by
      rw [afterFirstED] at h
      by_cases hp : edSep.isPrefixOf (c :: cs) = true
      · rw [if_pos hp] at h
        have hr : r = (c :: cs).drop edSep.length := (Option.some_inj.mp h).symm
        have hcs : afterLastED cs = afterLastED r := by
          have h10 : ∀ j, j < 10 → ¬ edSep.isPrefixOf (cs.drop j) = true := by
            intro j hj hq
            have hq2 : edSep.isPrefixOf ((c :: cs).drop (j + 1)) = true := by
              rw [List.drop_succ_cons]; exact hq
            exact no_overlap (j := j + 1) (by omega)
              (by rw [edSep_length]; omega) hp hq2
          have := afterLastED_drop_of_no_occ 10 cs h10
          rw [this, hr, edSep_length, List.drop_succ_cons]
        rw [afterLastED]
        cases h2 : afterLastED r with
        | none =>
            rw [hcs, h2, if_pos hp, hr]
            simp
        | some t =>
            rw [hcs, h2]
            simp
      · rw [if_neg hp] at h
        rw [afterLastED_cons_not_pre hp]
        exact afterLastED_of_afterFirstED cs r h

theorem pySplitLastGo_eq :
    ∀ (fuel : Nat) (s : List Char), s.length ≤ fuel →
      pySplitLastGo fuel s = (afterLastED s).getD s
  | 0, s, hf => by
      have : s = [] := List.eq_nil_of_length_eq_zero (by omega)
      subst this
      rfl
  | fuel + 1, s, hf => by
      rw [pySplitLastGo]
      cases h : afterFirstED s with
      | none =>
          rw [(afterFirstED_none_iff s).mp h]
          rfl
      | some r =>
          have hlen := afterFirstED_length h
          have hr : r.length ≤ fuel := by
            have hpos : 0 < edSep.length := by rw [edSep_length]; omega
            omega
          show pySplitLastGo fuel r = (afterLastED s).getD s
          rw [pySplitLastGo_eq fuel r hr, afterLastED_of_afterFirstED s r h]
          rfl

theorem pySplitLastED_eq (s : List Char) :
    pySplitLastED s = (afterLastED s).getD s :=
  pySplitLastGo_eq s.length s (Nat.le_refl _)

theorem splitCharLast_eq_spec (c : Char) (s : List Char) :
    splitCharLast c s = specLastSegChar c s := by
  induction s using List.reverseRecOn with
  | nil => rfl
  | append_singleton l a ih =>
      unfold splitCharLast specLastSegChar at ih ⊢
      rw [List.foldl_append, List.reverse_append]
      simp only [List.foldl_cons, List.foldl_nil, List.reverse_singleton,
        List.singleton_append, List.takeWhile_cons]
      by_cases hac : a = c
      · simp [hac]
      · have hbc : (a != c) = true := by simp [hac]
        rw [if_neg hac, if_pos hbc, List.reverse_cons, ih]

/-! ## Helper lemmas about the conversion routine -/

theorem system_name_of_eq_spec (p : String) :
    system_name_of p = spec_system_name (stem_of p) := by
  unfold system_name_of spec_system_name
  rw [splitCharLast_eq_spec]

theorem convert_screenshot_of_ok {ctx : Ctx} {fs : FS} {h : Helper}
    (bmp sys : String) (now : DateTime6)
    (hh : ctx.plugin_helper = some h) (hex : fs.fileExists bmp = true) :
    convert_screenshot ctx fs bmp sys now true =
      ⟨some ⟨conv_new_path h bmp sys now,
              asciiUpper (resolved_target_format h),
              resolved_target_format h == "jpg"⟩,
        true,
        [ProjectedEvent.screenshotConverted bmp (conv_new_path h bmp sys now) sys]⟩ := by
  simp only [convert_screenshot, hh, hex, if_true]

theorem convert_screenshot_saved {ctx : Ctx} {fs : FS} {h : Helper}
    {bmp sys : String} {now : DateTime6} {ok : Bool} {s : SaveCall}
    (hh : ctx.plugin_helper = some h)
    (hs : (convert_screenshot ctx fs bmp sys now ok).saved = some s) :
    s = ⟨conv_new_path h bmp sys now,
         asciiUpper (resolved_target_format h),
         resolved_target_format h == "jpg"⟩ := by
  by_cases hex : fs.fileExists bmp = true
  · cases ok with
    | true =>
        rw [convert_screenshot_of_ok bmp sys now hh hex] at hs
        exact (Option.some_inj.mp hs).symm
    | false =>
        simp only [convert_screenshot, hh, hex, if_true] at hs
        exact absurd hs (by simp)
  · simp only [convert_screenshot, hh] at hs
    rw [if_neg hex] at hs
    exact absurd hs (by simp)

theorem digit_ofNat_isDigit : ∀ k, k < 10 → (Char.ofNat (48 + k)).isDigit = true := by
  decide

theorem digitChar_isDigit (n : Nat) : (digitChar n).isDigit = true :=
  digit_ofNat_isDigit (n % 10) (Nat.mod_lt _ (by omega))

theorem strftimeTS_length (t : DateTime6) : (strftimeTS t).length = 14 := by
  simp [strftimeTS, pad4, pad2]

theorem strftimeTS_digits (t : DateTime6) :
    ∀ c ∈ (strftimeTS t).data, c.isDigit = true := by
  intro c hc
  have hdata : (strftimeTS t).data =
      [digitChar (t.year / 1000), digitChar (t.year / 100), digitChar (t.year / 10),
       digitChar t.year, digitChar (t.month / 10), digitChar t.month,
       digitChar (t.day / 10), digitChar t.day, digitChar (t.hour / 10), digitChar t.hour,
       digitChar (t.minute / 10), digitChar t.minute, digitChar (t.second / 10),
       digitChar t.second] := rfl
  rw [hdata] at hc
  simp only [List.mem_cons, List.not_mem_nil, or_false] at hc
  rcases hc with rfl | rfl | rfl | rfl | rfl | rfl | rfl | rfl | rfl | rfl | rfl | rfl | rfl | rfl <;>
    exact digitChar_isDigit _

theorem conv_new_name_ne_empty (h : Helper) (bmp sys : String) (now : DateTime6) :
    conv_new_name h bmp sys now ≠ "" := by
  intro heq
  have hlen := congrArg String.length heq
  simp only [conv_new_name, String.length_append] at hlen
  have hdot : ("." : String).length = 1 := rfl
  rw [hdot] at hlen
  have hz : ("" : String).length = 0 := rfl
  rw [hz] at hlen
  omega

theorem conv_new_path_ext (h : Helper) (bmp sys : String) (now : DateTime6) :
    conv_new_path h bmp sys now =
      (pathParent bmp ++ "/" ++ conv_pre bmp sys now) ++
        ("." ++ resolved_target_format h) := by
  unfold conv_new_path pathJoin
  rw [if_neg (conv_new_name_ne_empty h bmp sys now)]
  unfold conv_new_name
  simp only [String.append_assoc]

/-! ## Concrete fixtures used by witnesses and counterexamples -/

/-- A helper with both settings present ("jpg" output) and a Location
projection reporting the star system "Sol". -/
def helperW : Helper := ⟨some "/shots", some "jpg", some [("StarSystem", "Sol")]⟩

/-- A helper with no settings and no Location projection. -/
def hEmptyW : Helper := ⟨none, none, none⟩

/-- A ready context with trivial environment expansion and path resolution. -/
def ctxW : Ctx := ⟨some helperW, id, id⟩

/-- A concrete screenshot path. -/
def bmpW : String := "/shots/Screenshot_0001.bmp"

/-- A file system where only `bmpW` exists, freshly modified. -/
def fsW : FS := ⟨fun p => p == bmpW, fun _ => 0⟩

/-- A file system where only `bmpW` exists, last modified 10 minutes ago. -/
def fsOldW : FS := ⟨fun p => p == bmpW, fun _ => 10⟩

/-- A file system where no file exists. -/
def fsNoneW : FS := ⟨fun _ => false, fun _ => 0⟩

/-- A concrete instant. -/
def nowW : DateTime6 := ⟨2024, 1, 2, 3, 4, 5⟩

/-- Content dictionary of a well-formed Screenshot event for `bmpW`. -/
def dW : List (String × PyVal) := [("event", PyVal.str "Screenshot"), ("Filename", PyVal.str bmpW)]

/-- A well-formed Screenshot event for `bmpW`. -/
def evW : Event := ⟨some (Content.dict dW)⟩

/-- Content dictionary of a Screenshot event with no Filename entry. -/
def dNoFilenameW : List (String × PyVal) := [("event", PyVal.str "Screenshot")]

/-- A Screenshot event with no Filename entry. -/
def evNoFilenameW : Event := ⟨some (Content.dict dNoFilenameW)⟩

/-- A non-screenshot journal event. -/
def evJournalW : Event := ⟨some (Content.dict [("event", PyVal.str "FSDJump")])⟩

/-- A Screenshot event whose Filename is a truthy non-string value, making
`os.path.expandvars` raise inside the handler. -/
def evBadFilenameW : Event :=
  ⟨some (Content.dict [("event", PyVal.str "Screenshot"), ("Filename", PyVal.truthyOther)])⟩

/-- The save call produced for `bmpW` / "Sol" / `nowW` under `helperW`. -/
def saveW : SaveCall := ⟨"/shots/Sol_0001-20240102030405.jpg", "JPG", true⟩

/-! ## Claims -/

/-- Claim C1: for every successfully converted screenshot, the re-encoded
output matches the requested target format: with target "png" the save call
passes format string "PNG" and the new path carries extension ".png" with no
RGB conversion; with target "jpg" it passes format string "JPG", the path
carries ".jpg", and the image was converted to RGB first.  The image writer
is external to the repository and is modelled as encoding in the format it
is asked to. -/
theorem C1_output_matches_target_format
    (ctx : Ctx) (fs : FS) (bmp sys : String) (now : DateTime6) (ok : Bool)
    (h : Helper) (s : SaveCall)
    (hh : ctx.plugin_helper = some h)
    (hs : (convert_screenshot ctx fs bmp sys now ok).saved = some s) :
    (resolved_target_format h = "png" →
      s.formatArg = "PNG" ∧ s.convertedRGB = false ∧ ∃ b, s.path = b ++ ".png") ∧
    (resolved_target_format h = "jpg" →
      s.formatArg = "JPG" ∧ s.convertedRGB = true ∧ ∃ b, s.path = b ++ ".jpg") := by
  have hseq := convert_screenshot_saved hh hs
  subst hseq
  constructor
  · intro hfmt
    refine ⟨?_, ?_, ?_⟩
    · show asciiUpper (resolved_target_format h) = "PNG"
      rw [hfmt]
      decide
    · show (resolved_target_format h == "jpg") = false
      rw [hfmt]
      decide
    · show ∃ b, conv_new_path h bmp sys now = b ++ ".png"
      rw [conv_new_path_ext, hfmt]
      exact ⟨pathParent bmp ++ "/" ++ conv_pre bmp sys now, rfl⟩
  · intro hfmt
    refine ⟨?_, ?_, ?_⟩
    · show asciiUpper (resolved_target_format h) = "JPG"
      rw [hfmt]
      decide
    · show (resolved_target_format h == "jpg") = true
      rw [hfmt]
      decide
    · show ∃ b, conv_new_path h bmp sys now = b ++ ".jpg"
      rw [conv_new_path_ext, hfmt]
      exact ⟨pathParent bmp ++ "/" ++ conv_pre bmp sys now, rfl⟩

/-- Witness for C1 at a concrete jpg conversion. -/
theorem C1_output_matches_target_format_witness :
    ctxW.plugin_helper = some helperW ∧
    (convert_screenshot ctxW fsW bmpW "Sol" nowW true).saved = some saveW ∧
    (saveW.formatArg = "JPG" ∧ saveW.convertedRGB = true ∧
      ∃ b, saveW.path = b ++ ".jpg") :=
  ⟨rfl, rfl,
    (C1_output_matches_target_format ctxW fsW bmpW "Sol" nowW true helperW saveW
      rfl rfl).2 rfl⟩

/-- Claim C2: every incoming event whose content is not a dictionary or whose
"event" field is not "Screenshot" makes `process` return the empty list with
no derived events and no conversion launch (hence no file-system effect). -/
theorem C2_non_screenshot_ignored (ctx : Ctx) (fs : FS) (ev : Event)
    (hne : isScreenshotEvent ev = false) :
    process ctx fs ev = ⟨[], none⟩ := by
  cases ev with
  | mk content =>
      cases content with
      | none => rfl
      | some c =>
          cases c with
          | nonDict => rfl
          | dict d =>
              have hd : ¬ d.lookup "event" = some (PyVal.str "Screenshot") := by
                simpa [isScreenshotEvent] using hne
              simp [process, hd]

/-- Witness for C2 at a concrete FSDJump event. -/
theorem C2_non_screenshot_ignored_witness :
    isScreenshotEvent evJournalW = false ∧ process ctxW fsW evJournalW = ⟨[], none⟩ :=
  ⟨rfl, C2_non_screenshot_ignored ctxW fsW evJournalW rfl⟩

/-- Counterexample to claim C3 as stated: on a Screenshot event with no
Filename entry, the plugin does NOT stay silent; it produces a derived
ScreenshotError event (ScreenshotConverterPlugin.py lines 119-125). -/
theorem C3_counterexample :
    (process ctxW fsW evNoFilenameW).projected =
      [mkErr "Screenshot event missing Filename"] ∧
    (process ctxW fsW evNoFilenameW).projected ≠ ([] : List ProjectedEvent) :=
  ⟨rfl, by decide⟩

/-- Claim C3 (amended): for every Screenshot notification whose "Filename"
entry is missing or falsy, the plugin performs no conversion and no
file-system action, but it does emit one derived ScreenshotError event with
message "Screenshot event missing Filename". -/
theorem C3_missing_filename_emits_error (ctx : Ctx) (fs : FS)
    (d : List (String × PyVal))
    (hev : d.lookup "event" = some (PyVal.str "Screenshot"))
    (hfn : filenameFalsy d = true) :
    process ctx fs ⟨some (Content.dict d)⟩ =
      ⟨[mkErr "Screenshot event missing Filename"], none⟩ := by
  unfold filenameFalsy at hfn
  cases hl : d.lookup "Filename" with
  | none => simp [process, handle_screenshot_event, handle_core, hev, hl]
  | some v =>
      rw [hl] at hfn
      cases v with
      | str s =>
          have hs : s = "" := by
            by_contra hs
            simp [truthy, hs] at hfn
          subst hs
          simp [process, handle_screenshot_event, handle_core, hev, hl]
      | pyNone => simp [process, handle_screenshot_event, handle_core, hev, hl, truthy]
      | truthyOther => simp [truthy] at hfn
      | falsyOther => simp [process, handle_screenshot_event, handle_core, hev, hl, truthy]

/-- Witness for the amended C3 at a concrete Filename-less event. -/
theorem C3_missing_filename_emits_error_witness :
    filenameFalsy dNoFilenameW = true ∧
    process ctxW fsW ⟨some (Content.dict dNoFilenameW)⟩ =
      ⟨[mkErr "Screenshot event missing Filename"], none⟩ :=
  ⟨rfl, C3_missing_filename_emits_error ctxW fsW dNoFilenameW rfl rfl⟩

/-- Claim C4: the source's path derivation (expand the filename, then take
`split("ED_Pictures")[-1]`, strip leading slashes and backslashes, and join
onto the configured base directory; the filename itself when the alias is
absent) coincides with the specification's description (the portion of the
filename after the LAST "ED_Pictures" occurrence). -/
theorem C4_alias_path_derivation (dir raw : String) :
    derive_bmp_path dir raw = spec_derive_path dir raw := by
  unfold derive_bmp_path spec_derive_path
  cases h : afterFirstED raw.data with
  | none =>
      rw [(afterFirstED_none_iff raw.data).mp h]
      simp [h]
  | some r =>
      have hl := afterLastED_of_afterFirstED raw.data r h
      rw [hl]
      simp [h, pySplitLastED_eq, hl]

/-- Claim C5: after every successful conversion the original file is deleted
and a ScreenshotConverted event is emitted carrying the original path, the
new path and the star-system name. -/
theorem C5_success_deletes_and_notifies
    (ctx : Ctx) (fs : FS) (bmp sys : String) (now : DateTime6) (h : Helper)
    (hh : ctx.plugin_helper = some h) (hex : fs.fileExists bmp = true) :
    (convert_screenshot ctx fs bmp sys now true).deletedOriginal = true ∧
    (convert_screenshot ctx fs bmp sys now true).emitted =
      [ProjectedEvent.screenshotConverted bmp (conv_new_path h bmp sys now) sys] := by
  rw [convert_screenshot_of_ok bmp sys now hh hex]
  exact ⟨rfl, rfl⟩

/-- Witness for C5 at a concrete successful conversion. -/
theorem C5_success_deletes_and_notifies_witness :
    (convert_screenshot ctxW fsW bmpW "Sol" nowW true).deletedOriginal = true ∧
    (convert_screenshot ctxW fsW bmpW "Sol" nowW true).emitted =
      [ProjectedEvent.screenshotConverted bmpW
        (conv_new_path helperW bmpW "Sol" nowW) "Sol"] :=
  C5_success_deletes_and_notifies ctxW fsW bmpW "Sol" nowW helperW rfl rfl

/-- Claim C6: when the derived source path does not exist, the handler emits
a ScreenshotError containing the missing path and launches no conversion;
and the conversion routine itself (whatever its other arguments) would save
nothing and delete nothing for that path, leaving the file system
unchanged. -/
theorem C6_missing_file_error_atomic
    (ctx : Ctx) (fs : FS) (h : Helper) (d : List (String × PyVal)) (fname : String)
    (hh : ctx.plugin_helper = some h)
    (hev : d.lookup "event" = some (PyVal.str "Screenshot"))
    (hfn : d.lookup "Filename" = some (PyVal.str fname))
    (hne : fname ≠ "")
    (hnex : fs.fileExists (derived_bmp ctx h fname) = false) :
    process ctx fs ⟨some (Content.dict d)⟩ =
      ⟨[mkErr ("Screenshot file not found: " ++ derived_bmp ctx h fname)], none⟩ ∧
    ∀ (sys : String) (now : DateTime6) (ok : Bool),
      (convert_screenshot ctx fs (derived_bmp ctx h fname) sys now ok).saved = none ∧
      (convert_screenshot ctx fs (derived_bmp ctx h fname) sys now ok).deletedOriginal
        = false := by
  constructor
  · simp [process, handle_screenshot_event, handle_core, hev, hfn, hne, hh, hnex]
  · intro sys now ok
    constructor <;> simp [convert_screenshot, hnex]

/-- Witness for C6 at a concrete event whose file is absent. -/
theorem C6_missing_file_error_atomic_witness :
    process ctxW fsNoneW ⟨some (Content.dict dW)⟩ =
      ⟨[mkErr ("Screenshot file not found: " ++ derived_bmp ctxW helperW bmpW)], none⟩ ∧
    ∀ (sys : String) (now : DateTime6) (ok : Bool),
      (convert_screenshot ctxW fsNoneW (derived_bmp ctxW helperW bmpW) sys now ok).saved
        = none ∧
      (convert_screenshot ctxW fsNoneW
        (derived_bmp ctxW helperW bmpW) sys now ok).deletedOriginal = false :=
  C6_missing_file_error_atomic ctxW fsNoneW helperW dW bmpW rfl rfl rfl
    (by decide) rfl

/-- Claim C7: every successfully saved file sits next to the original
(parent directory joined with the new name) and the new name is the current
star-system name with spaces replaced by underscores, an underscore, the
last underscore-separated segment of the original stem (or "System" when
the stem has no underscore), a hyphen, the 14-digit timestamp, a dot and
the target-format extension. -/
theorem C7_new_file_name_convention
    (ctx : Ctx) (fs : FS) (bmp sys : String) (now : DateTime6) (ok : Bool)
    (h : Helper) (s : SaveCall)
    (hh : ctx.plugin_helper = some h)
    (hs : (convert_screenshot ctx fs bmp sys now ok).saved = some s) :
    s.path = pathJoin (pathParent bmp)
      (replaceSpaces sys ++ "_" ++ spec_system_name (stem_of bmp) ++ "-" ++
        strftimeTS now ++ "." ++ resolved_target_format h) ∧
    (strftimeTS now).length = 14 ∧
    (∀ c ∈ (strftimeTS now).data, c.isDigit = true) := by
  have hseq := convert_screenshot_saved hh hs
  subst hseq
  refine ⟨?_, strftimeTS_length now, strftimeTS_digits now⟩
  show conv_new_path h bmp sys now = _
  unfold conv_new_path conv_new_name conv_pre
  rw [system_name_of_eq_spec]

/-- Witness for C7 at a concrete successful conversion. -/
theorem C7_new_file_name_convention_witness :
    saveW.path = pathJoin (pathParent bmpW)
      (replaceSpaces "Sol" ++ "_" ++ spec_system_name (stem_of bmpW) ++ "-" ++
        strftimeTS nowW ++ "." ++ resolved_target_format helperW) ∧
    (strftimeTS nowW).length = 14 ∧
    (∀ c ∈ (strftimeTS nowW).data, c.isDigit = true) :=
  C7_new_file_name_convention ctxW fsW bmpW "Sol" nowW true helperW saveW rfl rfl

/-- Counterexample to claim C8 as stated: a Screenshot event whose file was
last modified 10 minutes ago (older than 5 minutes) still launches a
conversion; this revision has no staleness check. -/
theorem C8_counterexample :
    fsOldW.mtimeAgeMin bmpW > 5 ∧
    (process ctxW fsOldW evW).conversionStarted = some ⟨bmpW, "Sol"⟩ :=
  ⟨by decide, rfl⟩

/-- Claim C8 (amended): the plugin performs no staleness check at all: the
outcome of processing an event depends on the file system only through file
existence, never through modification age, so screenshots of any age are
converted alike. -/
theorem C8_no_staleness_check (ctx : Ctx) (ev : Event) (fs1 fs2 : FS)
    (h : fs1.fileExists = fs2.fileExists) :
    process ctx fs1 ev = process ctx fs2 ev := by
  have hcore : ∀ fv, handle_core ctx fs1 fv = handle_core ctx fs2 fv := by
    intro fv
    unfold handle_core
    rw [h]
  cases ev with
  | mk content =>
      cases content with
      | none => simp [process]
      | some c =>
          cases c with
          | nonDict => simp [process]
          | dict d =>
              by_cases hev : d.lookup "event" = some (PyVal.str "Screenshot")
              · simp [process, handle_screenshot_event, hev, hcore]
              · simp [process, hev]

/-- Witness for the amended C8: a 10-minute-old and a fresh file system with
the same existing files are processed identically. -/
theorem C8_no_staleness_check_witness :
    fsOldW.fileExists = fsW.fileExists ∧
    process ctxW fsOldW evW = process ctxW fsW evW :=
  ⟨rfl, C8_no_staleness_check ctxW evW fsOldW fsW rfl⟩

/-- Claim C9: `process` never propagates an exception: whenever the handler
raises, `process` swallows the error (logging it) and returns the empty
result. -/
theorem C9_exceptions_contained (ctx : Ctx) (fs : FS) (ev : Event) (e : String)
    (h : handle_screenshot_event ctx fs ev = Except.error e) :
    process ctx fs ev = ⟨[], none⟩ := by
  cases ev with
  | mk content =>
      cases content with
      | none => rfl
      | some c =>
          cases c with
          | nonDict => rfl
          | dict d =>
              by_cases hev : d.lookup "event" = some (PyVal.str "Screenshot")
              · simp [process, hev, h]
              · simp [process, hev]

/-- Witness for C9 at a concrete Screenshot event whose Filename value makes
the handler raise. -/
theorem C9_exceptions_contained_witness :
    handle_screenshot_event ctxW fsW evBadFilenameW =
      Except.error "TypeError: expandvars expected str" ∧
    process ctxW fsW evBadFilenameW = ⟨[], none⟩ :=
  ⟨rfl, C9_exceptions_contained ctxW fsW evBadFilenameW _ rfl⟩

/-- Claim C10: absent or empty settings fall back to the built-in defaults:
the screenshot directory defaults to
"%USERPROFILE%\Pictures\Frontier Developments\Elite Dangerous" (then passed
through environment-variable expansion), the target format defaults to
"png", and a present format string is lower-cased before use. -/
theorem C10_settings_defaults (h : Helper)
    (hp : h.screenshot_path = none ∨ h.screenshot_path = some "")
    (ht : h.target_format = none ∨ h.target_format = some "") :
    resolved_screenshot_path h = defaultScreenshotPath ∧
    resolved_target_format h = "png" ∧
    (∀ ctx : Ctx, screenshot_dir ctx h = ctx.expandvars defaultScreenshotPath) ∧
    (∀ (g : Helper) (s : String), g.target_format = some s → s ≠ "" →
      resolved_target_format g = asciiLower s) := by
  have h1 : resolved_screenshot_path h = defaultScreenshotPath := by
    rcases hp with hp | hp <;> simp [resolved_screenshot_path, pyOrStr, hp]
  have h2 : resolved_target_format h = "png" := by
    rcases ht with ht | ht <;>
      · unfold resolved_target_format pyOrStr
        rw [ht]
        decide
  refine ⟨h1, h2, fun ctx => by rw [screenshot_dir, h1], ?_⟩
  intro g s hg hs
  unfold resolved_target_format pyOrStr
  rw [hg]
  simp [hs]

/-- Witness for C10 at a helper with no settings at all. -/
theorem C10_settings_defaults_witness :
    resolved_screenshot_path hEmptyW = defaultScreenshotPath ∧
    resolved_target_format hEmptyW = "png" ∧
    (∀ ctx : Ctx, screenshot_dir ctx hEmptyW = ctx.expandvars defaultScreenshotPath) ∧
    (∀ (g : Helper) (s : String), g.target_format = some s → s ≠ "" →
      resolved_target_format g = asciiLower s) :=
  C10_settings_defaults hEmptyW (Or.inl rfl) (Or.inl rfl)

end ScreenshotConverter
